import Mathlib

/-!
Verification development for the core of a 2D lunar-lander game
(docs/script.js): procedural terrain generation, vehicle dynamics
integrator, collision/landing judge, and heuristic autopilot.

Modelling conventions:
* JavaScript numbers are modelled as exact rationals where the code is
  purely arithmetic (terrain, collision judge), and as real numbers
  where the code uses transcendental functions (the integrator and the
  autopilot use Math.sin / Math.cos / Math.PI / Math.pow).
* Calls to Math.random() are modelled by an explicit draw function
  rand : Nat -> Rat; the k-th call of a run reads rand k, with indices
  threaded in the exact order the source consumes draws.
* In-place mutation of the lander / terrain objects becomes explicit
  state passing; each source function returns its updated state.
-/

/-! ## Shared data model -/

/-- The transient control record {left, right, thrust} from script.js. -/
structure Input where
  left : Bool
  right : Bool
  thrust : Bool
deriving DecidableEq

/-- Episode state enum: 'playing' | 'paused' | 'landed' | 'crashed'. -/
inductive GState where
  | playing
  | paused
  | landed
  | crashed
deriving DecidableEq

/-- The lander state from makeLander, polymorphic in the number type
(instantiated at Rat for the collision judge and at Real for the
integrator and the autopilot). -/
structure Lander (A : Type) where
  x : A
  y : A
  vx : A
  vy : A
  angle : A
  omega : A
  radius : A
  fuel : A
  crashedReason : String

/-! ## Terrain generation (makeTerrain, script.js lines 111-229)

All numbers rational; Math.random() draws are the values rand 0,
rand 1, ... in consumption order: draws 0..22 are the 23 point heights,
the next draw (if consumed) is desiredPadSegs, then the pad-center
draw (if consumed), then the pad-y draw. -/

/-- clamp = (v, lo, hi) => Math.max(lo, Math.min(hi, v)), on rationals. -/
def clampQ (v lo hi : ℚ) : ℚ := max lo (min hi v)

/-- clamp on integer indices (same formula). -/
def clampZ (v lo hi : ℤ) : ℤ := max lo (min hi v)

/-- lerp = (a, b, t) => a + (b - a) * t. -/
def lerpQ (a b t : ℚ) : ℚ := a + (b - a) * t

/-- Terrain segment record {x1, y1, x2, y2, m} with precomputed slope. -/
structure Seg where
  x1 : ℚ
  y1 : ℚ
  x2 : ℚ
  y2 : ℚ
  m : ℚ
deriving DecidableEq

instance : Inhabited Seg := ⟨⟨0, 0, 0, 0, 0⟩⟩

/-- The exposed landing pad {x1, x2, y}. -/
structure Pad where
  x1 : ℚ
  x2 : ℚ
  y : ℚ
deriving DecidableEq

/-- Options accepted by makeTerrain.  The difficulty presets pass
integer padSegments, so padSegments is modelled as an integer. -/
structure TerrainOpts where
  padSegments : Option ℤ
  padCenterX : Option ℚ
  padRangeFrac : Option (ℚ × ℚ)

/-- The terrain record returned by makeTerrain (data fields only;
yAt and draw are modelled as functions on this record). -/
structure TerrainQ where
  width : ℚ
  height : ℚ
  points : List (ℚ × ℚ)
  segs : List Seg
  pad : Pad

/-- segments = 22: the fixed number of terrain segments across the width. -/
def segCount : ℕ := 22

/-- Raw (pre-pad) height of point i:
y = lerp(minY, maxY, Math.random() * 0.88) with minY = height * 0.45 and
maxY = height - 40; the draw for point i is rand i. -/
def rawPtY (h : ℚ) (rand : ℕ → ℚ) (i : ℕ) : ℚ :=
  lerpQ (h * 0.45) (h - 40) (rand i * 0.88)

/-- desiredPadSegs, clamped: clamp(desired, 1, segments - 2); when opts
does not give padSegments the source draws 3 + floor(random() * 2),
consuming draw number 23. -/
def padSegsClamped (opts : TerrainOpts) (rand : ℕ → ℚ) : ℤ :=
  clampZ (match opts.padSegments with
    | some n => n
    | none => 3 + ⌊rand 23 * 2⌋) 1 (segCount - 2)

/-- Index of the next unconsumed draw after the padSegments choice. -/
def padRandBase (opts : TerrainOpts) : ℕ :=
  match opts.padSegments with
  | some _ => 23
  | none => 24

/-- padCenterIdx, by the three option strategies of the source
(explicit center x / fractional range / default middle band). -/
def padCenterIdxD (opts : TerrainOpts) (rand : ℕ → ℚ) (w : ℚ) : ℤ :=
  let step := w / (segCount : ℚ)
  let c := padRandBase opts
  match opts.padCenterX with
  | some cx => clampZ (round (cx / step)) 1 ((segCount : ℤ) - 1)
  | none =>
    match opts.padRangeFrac with
    | some fr =>
      let fmin := clampQ fr.1 0 1
      let fmax := clampQ fr.2 0 1
      let imin := ⌊fmin * (segCount : ℚ)⌋
      let imax := max (imin + 1) ⌊fmax * (segCount : ℚ)⌋
      clampZ ⌊(imin : ℚ) + rand c * ((imax : ℚ) - (imin : ℚ))⌋ 1 ((segCount : ℤ) - 1)
    | none => ⌊(segCount : ℚ) * (0.35 + rand c * 0.3)⌋

/-- Index of the draw used for padY (the pad-center strategy with an
explicit center x consumes no draw, the other two consume one). -/
def padYRandIdx (opts : TerrainOpts) : ℕ :=
  padRandBase opts + (match opts.padCenterX with
    | some _ => 0
    | none => 1)

/-- padY = lerp(minY, maxY, 0.7 + Math.random() * 0.2). -/
def padYD (opts : TerrainOpts) (rand : ℕ → ℚ) (h : ℚ) : ℚ :=
  lerpQ (h * 0.45) (h - 40) (0.7 + rand (padYRandIdx opts) * 0.2)

/-- half = Math.floor(padSegments / 2); the operand is in [1, 20] so
integer division agrees with Math.floor. -/
def padHalfD (opts : TerrainOpts) (rand : ℕ → ℚ) : ℤ :=
  padSegsClamped opts rand / 2

/-- startIdx = clamp(padCenterIdx - half, 1, points.length - 2)
(points.length = 23). -/
def padStartIdxD (opts : TerrainOpts) (rand : ℕ → ℚ) (w : ℚ) : ℤ :=
  clampZ (padCenterIdxD opts rand w - padHalfD opts rand) 1 ((segCount : ℤ) + 1 - 2)

/-- endIdx = clamp(startIdx + padSegments, startIdx + 1, points.length - 1). -/
def padEndIdxD (opts : TerrainOpts) (rand : ℕ → ℚ) (w : ℚ) : ℤ :=
  clampZ (padStartIdxD opts rand w + padSegsClamped opts rand)
    (padStartIdxD opts rand w + 1) ((segCount : ℤ) + 1 - 1)

/-- Final height of point i.  This is the functional rendering of the
source's in-place mutations: first all points in [startIdx, endIdx]
are overwritten with padY, then the single point on each side of the
plateau is clamped into [padY - rise, padY + drop] with rise = 20,
drop = 30 (the source guards the left neighbour with
startIdx - 1 >= 0 and the right one with endIdx + 1 < points.length);
the index sets of the three mutations are pairwise disjoint. -/
def ptYD (opts : TerrainOpts) (rand : ℕ → ℚ) (w h : ℚ) (i : ℕ) : ℚ :=
  let s := padStartIdxD opts rand w
  let e := padEndIdxD opts rand w
  let pY := padYD opts rand h
  if s ≤ (i : ℤ) ∧ (i : ℤ) ≤ e then pY
  else if 0 ≤ s - 1 ∧ (i : ℤ) = s - 1 then clampQ (rawPtY h rand i) (pY - 20) (pY + 30)
  else if (i : ℤ) = e + 1 ∧ e + 1 < (segCount : ℤ) + 1 then
    clampQ (rawPtY h rand i) (pY - 20) (pY + 30)
  else rawPtY h rand i

/-- The 23 terrain sample points, at x = i * step with step = width / 22. -/
def mkPointsD (opts : TerrainOpts) (rand : ℕ → ℚ) (w h : ℚ) : List (ℚ × ℚ) :=
  (List.range (segCount + 1)).map (fun (i : ℕ) => ((i : ℚ) * (w / (segCount : ℚ)), ptYD opts rand w h i))

/-- Build the segments array with slopes: for consecutive points a, b,
the segment {x1: a.x, y1: a.y, x2: b.x, y2: b.y, m: dy / dx}. -/
def mkSegs (ps : List (ℚ × ℚ)) : List Seg :=
  (ps.zip ps.tail).map (fun ab =>
    ⟨ab.1.1, ab.1.2, ab.2.1, ab.2.2, (ab.2.2 - ab.1.2) / (ab.2.1 - ab.1.1)⟩)

/-- makeTerrain(width, height, opts): the full terrain record.
pad.x1 / pad.x2 are points[startIdx].x and points[endIdx].x. -/
def makeTerrain (w h : ℚ) (opts : TerrainOpts) (rand : ℕ → ℚ) : TerrainQ :=
  let ps := mkPointsD opts rand w h
  { width := w
    height := h
    points := ps
    segs := mkSegs ps
    pad := ⟨(ps.getD (padStartIdxD opts rand w).toNat (0, 0)).1,
            (ps.getD (padEndIdxD opts rand w).toNat (0, 0)).1,
            padYD opts rand h⟩ }

/-- Evaluation of a single segment's line at x: s.y1 + s.m * (x - s.x1)
(the last line of yAt, "yAt through segment s"). -/
def segEval (s : Seg) (x : ℚ) : ℚ := s.y1 + s.m * (x - s.x1)

/-- The segment bucket index used by yAt:
Math.min(Math.floor((xi / width) * segs.length), segs.length - 1)
for xi = clamp(x, 0, width - 1). -/
def yAtIdx (t : TerrainQ) (x : ℚ) : ℕ :=
  let xi := clampQ x 0 (t.width - 1)
  (min ⌊xi / t.width * (t.segs.length : ℚ)⌋ ((t.segs.length : ℤ) - 1)).toNat

/-- yAt(x): clamp x, bucket into a segment, linearly interpolate.
List.getD stands in for the array access segs[idx]. -/
def yAt (t : TerrainQ) (x : ℚ) : ℚ :=
  segEval (t.segs.getD (yAtIdx t x) default) (clampQ x 0 (t.width - 1))

/-! ## Collision & landing judge (handleCollision, script.js lines 425-452) -/

/-- The safety-limit bundle PHYS.safe = {vX, vY, angle}. -/
structure SafeLimits where
  vX : ℚ
  vY : ℚ
  angle : ℚ
deriving DecidableEq

/-- The crash-reason list, in the source's fixed push order:
'missed pad', 'bad angle', 'too fast (h)', 'too fast (v)'. -/
def collisionReasons (safe : SafeLimits) (pad : Pad) (l : Lander ℚ) : List String :=
  (if ¬(pad.x1 ≤ l.x ∧ l.x ≤ pad.x2) then ["missed pad"] else []) ++
  (if ¬(|l.angle| ≤ safe.angle) then ["bad angle"] else []) ++
  (if ¬(|l.vx| ≤ safe.vX) then ["too fast (h)"] else []) ++
  (if ¬(|l.vy| ≤ safe.vY) then ["too fast (v)"] else [])

/-- handleCollision: when the lander's lower extent reaches the terrain
(y + radius >= yAt(x)), pin y to the ground, then classify: landed
(zeroing vx, vy, omega) iff on the pad with safe angle and speeds,
crashed otherwise with the joined reason string; no contact leaves the
lander and game state untouched. -/
def handleCollision (t : TerrainQ) (safe : SafeLimits) (l : Lander ℚ) (gs : GState) :
    Lander ℚ × GState :=
  let groundY := yAt t l.x
  if groundY ≤ l.y + l.radius then
    let l1 := { l with y := groundY - l.radius }
    if (t.pad.x1 ≤ l.x ∧ l.x ≤ t.pad.x2) ∧ |l.angle| ≤ safe.angle ∧
        |l.vx| ≤ safe.vX ∧ |l.vy| ≤ safe.vY then
      ({ l1 with vx := 0, vy := 0, omega := 0 }, GState.landed)
    else
      ({ l1 with crashedReason := String.intercalate ", " (collisionReasons safe t.pad l) },
        GState.crashed)
  else (l, gs)

/-! ## Vehicle dynamics (makeLander update, script.js lines 244-288)

The integrator uses Math.sin, Math.cos, Math.PI and Math.pow, so this
section works in the real numbers.  The fuel/torque stages are split
into named definitions mirroring the sequential mutations of the
source (the fuel checks happen in source order: the main-thrust draw
first, then the rotation draw reads the already-decremented fuel, and
the torque reads the fuel after both draws). -/

noncomputable section

/-- ANGULAR_DAMP = 0.995. -/
def angularDampC : ℝ := 0.995

/-- AIR_DAMP = 0.0005. -/
def airDampC : ℝ := 0.0005

/-- Physics parameter bundle PHYS (the fields the integrator and the
autopilot read). -/
structure Phys where
  gravity : ℝ
  mainThrust : ℝ
  rotAcc : ℝ
  fuelMainPerS : ℝ
  fuelRotPerS : ℝ

/-- Fuel after the main-thrust draw:
if (input.thrust and fuel > 0) fuel = max(0, fuel - fuelMainPerS * dt). -/
def fuelAfterMain (phys : Phys) (inp : Input) (l : Lander ℝ) (dt : ℝ) : ℝ :=
  if inp.thrust ∧ 0 < l.fuel then max 0 (l.fuel - phys.fuelMainPerS * dt) else l.fuel

/-- Fuel after the rotation draw, which reads the post-main-draw fuel:
if ((input.left or input.right) and fuel > 0)
fuel = max(0, fuel - fuelRotPerS * dt). -/
def fuelAfterRot (phys : Phys) (inp : Input) (l : Lander ℝ) (dt : ℝ) : ℝ :=
  let f1 := fuelAfterMain phys inp l dt
  if (inp.left ∨ inp.right) ∧ 0 < f1 then max 0 (f1 - phys.fuelRotPerS * dt) else f1

/-- Angular velocity after the torque stage; each torque fires only if
fuel is still positive after both draws:
if (input.left and fuel > 0) omega -= rotAcc * dt;
if (input.right and fuel > 0) omega += rotAcc * dt. -/
def omegaAfterTorque (phys : Phys) (inp : Input) (l : Lander ℝ) (dt : ℝ) : ℝ :=
  let f2 := fuelAfterRot phys inp l dt
  let o1 := if inp.left ∧ 0 < f2 then l.omega - phys.rotAcc * dt else l.omega
  if inp.right ∧ 0 < f2 then o1 + phys.rotAcc * dt else o1

/-- The single-step angle wrap of the source:
if (angle > PI) angle -= PI * 2; if (angle < -PI) angle += PI * 2.
One conditional subtraction, then one conditional addition. -/
def wrapAngle (a : ℝ) : ℝ :=
  let a1 := if Real.pi < a then a - Real.pi * 2 else a
  if a1 < -Real.pi then a1 + Real.pi * 2 else a1

/-- Frame-rate-normalized angular damping Math.pow(ANGULAR_DAMP, dt * 60). -/
def dampFactor (dt : ℝ) : ℝ := Real.rpow angularDampC (dt * 60)

/-- One explicit-Euler integration step (the update method).  Early
no-op when dt <= 0; thrust acceleration along (sin angle, -cos angle);
fuel draws and torque as above; velocity integration followed by the
multiplicative air-damping factor; position integration; angle
integration with the post-torque angular velocity followed by angular
damping of omega; single-step angle wrap; soft horizontal world-bound
bounce within radius + 2 of either edge. -/
def update (phys : Phys) (worldWidth : ℝ) (inp : Input) (l : Lander ℝ) (dt : ℝ) :
    Lander ℝ :=
  if dt ≤ 0 then l else
  let usingThrust := inp.thrust ∧ 0 < l.fuel
  let ax := if usingThrust then phys.mainThrust * Real.sin l.angle else 0
  let ay := if usingThrust then phys.gravity + phys.mainThrust * (-Real.cos l.angle)
    else phys.gravity
  let fuel2 := fuelAfterRot phys inp l dt
  let omega2 := omegaAfterTorque phys inp l dt
  let vx1 := (l.vx + ax * dt) * (1 - airDampC)
  let vy1 := (l.vy + ay * dt) * (1 - airDampC)
  let x1 := l.x + vx1 * dt
  let y1 := l.y + vy1 * dt
  let angle1 := wrapAngle (l.angle + omega2 * dt)
  let omega3 := omega2 * dampFactor dt
  let m := l.radius + 2
  let xv : ℝ × ℝ :=
    if x1 < m then (m, |vx1| * 0.2)
    else if worldWidth - m < x1 then (worldWidth - m, -(|vx1| * 0.2))
    else (x1, vx1)
  { l with x := xv.1, y := y1, vx := xv.2, vy := vy1,
           angle := angle1, omega := omega3, fuel := fuel2 }

end

/-! ## Autopilot controller (applyAutopilot, script.js lines 566-625)

The source reads terrain.pad.x1, terrain.pad.x2 and terrain.yAt(x)
from the terrain object; those three observed values are passed here
as padX1, padX2 and groundY.  The persistent latch autopilot.burning
is passed in and the updated value is returned next to the control
record the function writes. -/

noncomputable section

/-- clamp on reals, as used throughout applyAutopilot. -/
def clampR (v lo hi : ℝ) : ℝ := max lo (min hi v)

/-- Autopilot tuning bundle AUTOCFG. -/
structure AutoCfg where
  glideAlt : ℝ
  baseMargin : ℝ
  marginVelK : ℝ
  vFinalNear : ℝ
  vFinal : ℝ

/-- First normalization loop of angleDiff: while (d > PI) d -= PI * 2. -/
def angleDiffUp (d : ℝ) : ℝ :=
  if h : Real.pi < d then angleDiffUp (d - Real.pi * 2) else d
termination_by (⌈(d - Real.pi) / (Real.pi * 2)⌉).toNat
decreasing_by
  have hpi : (0 : ℝ) < Real.pi * 2 := by positivity
  have harg : (0 : ℝ) < (d - Real.pi) / (Real.pi * 2) := div_pos (by linarith) hpi
  have hstep : (d - Real.pi * 2 - Real.pi) / (Real.pi * 2)
      = (d - Real.pi) / (Real.pi * 2) - 1 := by
    field_simp
    ring
  have hceil : (0 : ℤ) < ⌈(d - Real.pi) / (Real.pi * 2)⌉ := Int.ceil_pos.mpr harg
  rw [hstep, Int.ceil_sub_one]
  omega

/-- Second normalization loop of angleDiff: while (d < -PI) d += PI * 2. -/
def angleDiffDown (d : ℝ) : ℝ :=
  if h : d < -Real.pi then angleDiffDown (d + Real.pi * 2) else d
termination_by (⌈(-d - Real.pi) / (Real.pi * 2)⌉).toNat
decreasing_by
  have hpi : (0 : ℝ) < Real.pi * 2 := by positivity
  have harg : (0 : ℝ) < (-d - Real.pi) / (Real.pi * 2) := div_pos (by linarith) hpi
  have hstep : (-(d + Real.pi * 2) - Real.pi) / (Real.pi * 2)
      = (-d - Real.pi) / (Real.pi * 2) - 1 := by
    field_simp
    ring
  have hceil : (0 : ℤ) < ⌈(-d - Real.pi) / (Real.pi * 2)⌉ := Int.ceil_pos.mpr harg
  rw [hstep, Int.ceil_sub_one]
  omega

/-- angleDiff(a, b): the shortest signed angle difference, computed by
the source's two while loops applied to a - b in order. -/
def angleDiff (a b : ℝ) : ℝ := angleDiffDown (angleDiffUp (a - b))

/-- alt = Math.max(0, terrain.yAt(x) - (y + radius)) as read by the
autopilot (groundY stands for terrain.yAt(lander.x)). -/
def altitudeOf (groundY : ℝ) (l : Lander ℝ) : ℝ := max 0 (groundY - (l.y + l.radius))

/-- vFinal = alt < 18 ? AUTOCFG.vFinalNear : AUTOCFG.vFinal. -/
def vFinalAt (cfg : AutoCfg) (alt : ℝ) : ℝ := if alt < 18 then cfg.vFinalNear else cfg.vFinal

/-- a_on = PHYS.gravity - PHYS.mainThrust * Math.max(0, cos(angle)):
vertical acceleration while thrusting at the given tilt. -/
def vertAccelOn (phys : Phys) (angle : ℝ) : ℝ :=
  phys.gravity - phys.mainThrust * max 0 (Real.cos angle)

/-- The guard of the stopping-distance computation:
a_on < 0 and vy > vFinal. -/
def burnGuard (phys : Phys) (cfg : AutoCfg) (l : Lander ℝ) (alt : ℝ) : Prop :=
  vertAccelOn phys l.angle < 0 ∧ vFinalAt cfg alt < l.vy

instance (phys : Phys) (cfg : AutoCfg) (l : Lander ℝ) (alt : ℝ) :
    Decidable (burnGuard phys cfg l alt) := by
  unfold burnGuard
  infer_instance

/-- The stopping-distance burn test.  Inside the guard:
s_stop = (vFinal^2 - vy^2) / (2 * a_on),
margin = baseMargin + marginVelK * vy,
needBurn = s_stop + margin >= alt; outside the guard needBurn stays
false and no division is performed. -/
def stopBurnTest (phys : Phys) (cfg : AutoCfg) (l : Lander ℝ) (alt : ℝ) : Bool :=
  let a_on := vertAccelOn phys l.angle
  let vF := vFinalAt cfg alt
  if burnGuard phys cfg l alt then
    if alt ≤ (vF ^ 2 - l.vy ^ 2) / (2 * a_on) + (cfg.baseMargin + cfg.marginVelK * l.vy)
      then true else false
  else false

/-- needBurn after the tilt suppression:
tooTilted = |angle| > 0.35 and alt > 30;
if (tooTilted and needBurn and a_on >= -2) needBurn = false. -/
def needBurnFinal (phys : Phys) (cfg : AutoCfg) (l : Lander ℝ) (alt : ℝ) : Bool :=
  let nb := stopBurnTest phys cfg l alt
  if ((0.35 : ℝ) < |l.angle| ∧ (30 : ℝ) < alt) ∧ nb ∧ (-2 : ℝ) ≤ vertAccelOn phys l.angle
    then false else nb

/-- The hysteresis latch update (script.js lines 616-622):
if burning, keep burning until vy <= vFinal + 1 or alt < 8;
otherwise start burning when needBurn or (alt < 28 and vy > vFinal). -/
def burningStep (cfg : AutoCfg) (l : Lander ℝ) (alt : ℝ) (needBurn : Bool)
    (burning : Bool) : Bool :=
  let vF := vFinalAt cfg alt
  if burning then
    if l.vy ≤ vF + 1 ∨ alt < 8 then false else true
  else
    if needBurn ∨ (alt < 28 ∧ vF < l.vy) then true else false

/-- applyAutopilot: early return (controls and latch untouched) if
fuel <= 0; otherwise PD lateral control choosing left/right from the
dead-banded angle error against the clamped, altitude-faded desired
tilt, and vertical control setting thrust from the updated burning
latch.  Returns the written control record and the latch. -/
def applyAutopilot (phys : Phys) (cfg : AutoCfg) (padX1 padX2 groundY : ℝ)
    (l : Lander ℝ) (burning : Bool) (inp : Input) : Input × Bool :=
  if l.fuel ≤ 0 then (inp, burning) else
  let padCenter := (padX1 + padX2) * 0.5
  let padHalf := max 8 ((padX2 - padX1) * 0.5)
  let ex := padCenter - l.x
  let alt := altitudeOf groundY l
  let tilt0 := clampR (0.0012 * ex + 0.0045 * (-l.vx)) (-0.6) 0.6
  let tilt1 := tilt0 * clampR (alt / cfg.glideAlt) 0 1
  let tilt2 := if |ex| < padHalf * 0.7 then tilt1 * 0.6 else tilt1
  let tilt3 := if alt < 60 then clampR tilt2 (-0.22) 0.22 else tilt2
  let tilt4 := if alt < 22 then 0 else tilt3
  let angErr := angleDiff tilt4 l.angle
  let lr : Bool × Bool :=
    if (0.02 : ℝ) < angErr then (false, true)
    else if angErr < (-0.02 : ℝ) then (true, false)
    else (false, false)
  let nb := needBurnFinal phys cfg l alt
  let burning2 := burningStep cfg l alt nb burning
  ({ left := lr.1, right := lr.2, thrust := burning2 }, burning2)

end

/-! ## Concrete instances shared by witnesses -/

/-- The base physics constants of script.js (BASE). -/
noncomputable def basePhys : Phys := ⟨22, 42, 2.6, 26, 6⟩

/-- The normal-difficulty autopilot tuning (DIFFICULTIES.normal.auto). -/
noncomputable def normalCfg : AutoCfg := ⟨150, 26, 0.32, 6, 10⟩

/-! ## Claim theorems: vehicle dynamics -/

/-- C9: calling the integrator with dt <= 0 leaves every vehicle field
(position, velocity, angle, angular velocity, fuel) unchanged - a
guaranteed no-op. -/
theorem update_noop_of_nonpos_dt (phys : Phys) (ww : ℝ) (inp : Input) (l : Lander ℝ)
    (dt : ℝ) (h : dt ≤ 0) : update phys ww inp l dt = l := by
  simp [update, h]

theorem update_noop_of_nonpos_dt_witness :
    (-1 : ℝ) ≤ 0 ∧
      update basePhys 880 ⟨false, false, false⟩ ⟨440, 90, 0, 2, 0, 0, 14, 100, ""⟩ (-1)
        = ⟨440, 90, 0, 2, 0, 0, 14, 100, ""⟩ :=
  ⟨by norm_num, update_noop_of_nonpos_dt _ _ _ _ _ (by norm_num)⟩

/-- C4: for every integration step with dt > 0, any control input and
any physics bundle (with the bundle's non-negative burn rates and a
non-negative starting fuel level, as every reachable state has), fuel
after the step is at most fuel before, and never negative. -/
theorem fuel_monotone_nonneg (phys : Phys) (ww : ℝ) (inp : Input) (l : Lander ℝ) (dt : ℝ)
    (hdt : 0 < dt) (hf : 0 ≤ l.fuel)
    (hm : 0 ≤ phys.fuelMainPerS) (hr : 0 ≤ phys.fuelRotPerS) :
    (update phys ww inp l dt).fuel ≤ l.fuel ∧ 0 ≤ (update phys ww inp l dt).fuel := by
  have hmain : fuelAfterMain phys inp l dt ≤ l.fuel ∧ 0 ≤ fuelAfterMain phys inp l dt := by
    unfold fuelAfterMain
    split
    · have hmul : 0 ≤ phys.fuelMainPerS * dt := mul_nonneg hm hdt.le
      exact ⟨max_le hf (by linarith), le_max_left _ _⟩
    · exact ⟨le_refl _, hf⟩
  have hrot : fuelAfterRot phys inp l dt ≤ l.fuel ∧ 0 ≤ fuelAfterRot phys inp l dt := by
    simp only [fuelAfterRot]
    split
    · have hmul : 0 ≤ phys.fuelRotPerS * dt := mul_nonneg hr hdt.le
      exact ⟨max_le hf (by linarith [hmain.1]), le_max_left _ _⟩
    · exact hmain
  have hu : (update phys ww inp l dt).fuel = fuelAfterRot phys inp l dt := by
    simp [update, not_le.mpr hdt]
  rw [hu]
  exact hrot

theorem fuel_monotone_nonneg_witness :
    ((0 : ℝ) < 1 ∧ (0 : ℝ) ≤ 100 ∧ (0 : ℝ) ≤ basePhys.fuelMainPerS ∧
      (0 : ℝ) ≤ basePhys.fuelRotPerS) ∧
    ((update basePhys 880 ⟨true, true, false⟩ ⟨440, 90, 0, 2, 0, 0, 14, 100, ""⟩ 1).fuel
        ≤ (100 : ℝ) ∧
      0 ≤ (update basePhys 880 ⟨true, true, false⟩ ⟨440, 90, 0, 2, 0, 0, 14, 100, ""⟩ 1).fuel) :=
  ⟨⟨by norm_num, by norm_num, by norm_num [basePhys], by norm_num [basePhys]⟩,
    fuel_monotone_nonneg basePhys 880 ⟨true, true, false⟩ ⟨440, 90, 0, 2, 0, 0, 14, 100, ""⟩ 1
      (by norm_num) (by norm_num) (by norm_num [basePhys]) (by norm_num [basePhys])⟩

/-- C5 (amended): the integrator applies a single conditional wrap
(subtract one turn if the integrated angle exceeds pi, else add one
turn if it is below -pi), so after one step with dt > 0 the angle lies
in the closed interval [-pi, pi] whenever the pre-wrap angle
angle + omega * dt (with the post-torque angular velocity) lies in
[-3 pi, 3 pi]; a larger angular velocity can leave the angle outside
(-pi, pi]. -/
theorem angle_wrap_single_turn (phys : Phys) (ww : ℝ) (inp : Input) (l : Lander ℝ)
    (dt : ℝ) (hdt : 0 < dt)
    (hb : |l.angle + omegaAfterTorque phys inp l dt * dt| ≤ 3 * Real.pi) :
    (update phys ww inp l dt).angle ∈ Set.Icc (-Real.pi) Real.pi := by
  have hu : (update phys ww inp l dt).angle
      = wrapAngle (l.angle + omegaAfterTorque phys inp l dt * dt) := by
    simp [update, not_le.mpr hdt]
  rw [hu]
  rw [abs_le] at hb
  have hpi := Real.pi_pos
  simp only [wrapAngle, Set.mem_Icc]
  split_ifs <;> constructor <;> linarith [hb.1, hb.2]

theorem angle_wrap_single_turn_witness :
    ((0 : ℝ) < 1 ∧
      |((⟨440, 90, 0, 2, 0, 1, 14, 0, ""⟩ : Lander ℝ)).angle
          + omegaAfterTorque basePhys ⟨false, false, false⟩
              ⟨440, 90, 0, 2, 0, 1, 14, 0, ""⟩ 1 * 1| ≤ 3 * Real.pi) ∧
    (update basePhys 880 ⟨false, false, false⟩
        ⟨440, 90, 0, 2, 0, 1, 14, 0, ""⟩ 1).angle ∈ Set.Icc (-Real.pi) Real.pi :=
  ⟨⟨by norm_num,
    by
      simp [omegaAfterTorque, fuelAfterRot, fuelAfterMain]
      nlinarith [Real.pi_gt_three]⟩,
    angle_wrap_single_turn basePhys 880 ⟨false, false, false⟩
      ⟨440, 90, 0, 2, 0, 1, 14, 0, ""⟩ 1 (by norm_num)
      (by
        simp [omegaAfterTorque, fuelAfterRot, fuelAfterMain]
        nlinarith [Real.pi_gt_three])⟩

/-- C5 counterexample: a single step from angle 0 with angular velocity
100 and dt = 1 integrates the angle to 100; one wrap subtracts a
single turn, leaving 100 - 2 pi, which is far outside (-pi, pi] -
contradicting the claim that the post-step angle always lies in
(-pi, pi] for every pre-step state. -/
theorem angle_wrap_cex :
    (update basePhys 880 ⟨false, false, false⟩
        ⟨440, 90, 0, 2, 0, 100, 14, 0, ""⟩ 1).angle ∉ Set.Ioc (-Real.pi) Real.pi := by
  have hpi4 : Real.pi < 4 := Real.pi_lt_d2.trans (by norm_num)
  have hpi := Real.pi_pos
  have hu : (update basePhys 880 ⟨false, false, false⟩
      ⟨440, 90, 0, 2, 0, 100, 14, 0, ""⟩ 1).angle = wrapAngle ((0 : ℝ) + 100 * 1) := by
    norm_num [update, omegaAfterTorque, fuelAfterRot, fuelAfterMain]
  rw [hu]
  have h1 : Real.pi < (0 : ℝ) + 100 * 1 := by linarith
  have hw : wrapAngle ((0 : ℝ) + 100 * 1) = 100 - Real.pi * 2 := by
    simp only [wrapAngle]
    rw [if_pos h1]
    rw [if_neg (show ¬((0 : ℝ) + 100 * 1 - Real.pi * 2 < -Real.pi) by push_neg; linarith)]
    ring
  rw [hw]
  simp only [Set.mem_Ioc, not_and_or, not_le]
  right
  linarith

/-- C6 (amended): in a step with dt > 0 where left or right rotation is
requested and fuel is still positive after the main-thrust draw of the
same step, fuel is decremented by fuelBurnRateRotation * dt, floored
at 0; and if fuel is also still positive after that rotation draw, the
angular velocity receives the torque -rotationalAccel * dt for left
and +rotationalAccel * dt for right (before the angular damping
factor).  The rotation stage reads the fuel already decremented by the
main-thrust draw, so the two draws are sequential, not independent. -/
theorem rotation_burn_torque (phys : Phys) (ww : ℝ) (inp : Input) (l : Lander ℝ)
    (dt : ℝ) (hdt : 0 < dt) (hlr : inp.left = true ∨ inp.right = true)
    (hf : 0 < fuelAfterMain phys inp l dt) :
    (update phys ww inp l dt).fuel
      = max 0 (fuelAfterMain phys inp l dt - phys.fuelRotPerS * dt) ∧
    (0 < fuelAfterRot phys inp l dt →
      (update phys ww inp l dt).omega
        = (l.omega + (if inp.left then -(phys.rotAcc * dt) else 0)
            + (if inp.right then phys.rotAcc * dt else 0)) * dampFactor dt) := by
  have hrot : fuelAfterRot phys inp l dt
      = max 0 (fuelAfterMain phys inp l dt - phys.fuelRotPerS * dt) := by
    simp only [fuelAfterRot]
    rw [if_pos ⟨hlr, hf⟩]
  constructor
  · have hu : (update phys ww inp l dt).fuel = fuelAfterRot phys inp l dt := by
      simp [update, not_le.mpr hdt]
    rw [hu, hrot]
  · intro hf2
    have hu : (update phys ww inp l dt).omega
        = omegaAfterTorque phys inp l dt * dampFactor dt := by
      simp [update, not_le.mpr hdt]
    rw [hu]
    simp only [omegaAfterTorque]
    rcases hL : inp.left <;> rcases hR : inp.right
    · rcases hlr with h | h
      · exact absurd h (by simp [hL])
      · exact absurd h (by simp [hR])
    · simp [hL, hR, hf2, sub_eq_add_neg]
    · simp [hL, hR, hf2, sub_eq_add_neg]
    · simp [hL, hR, hf2, sub_eq_add_neg]

theorem rotation_burn_torque_witness :
    ((0 : ℝ) < 1 ∧ (⟨true, false, false⟩ : Input).left = true ∧
      0 < fuelAfterMain basePhys ⟨true, false, false⟩ ⟨440, 90, 0, 2, 0, 0, 14, 100, ""⟩ 1) ∧
    ((update basePhys 880 ⟨true, false, false⟩ ⟨440, 90, 0, 2, 0, 0, 14, 100, ""⟩ 1).fuel
        = max 0 (fuelAfterMain basePhys ⟨true, false, false⟩
            ⟨440, 90, 0, 2, 0, 0, 14, 100, ""⟩ 1 - basePhys.fuelRotPerS * 1) ∧
      (0 < fuelAfterRot basePhys ⟨true, false, false⟩ ⟨440, 90, 0, 2, 0, 0, 14, 100, ""⟩ 1 →
        (update basePhys 880 ⟨true, false, false⟩
            ⟨440, 90, 0, 2, 0, 0, 14, 100, ""⟩ 1).omega
          = ((0 : ℝ) + (if (⟨true, false, false⟩ : Input).left then -(basePhys.rotAcc * 1) else 0)
              + (if (⟨true, false, false⟩ : Input).right then basePhys.rotAcc * 1 else 0))
            * dampFactor 1)) :=
  ⟨⟨by norm_num, rfl, by norm_num [fuelAfterMain]⟩,
    rotation_burn_torque basePhys 880 ⟨true, false, false⟩ ⟨440, 90, 0, 2, 0, 0, 14, 100, ""⟩ 1
      (by norm_num) (Or.inl rfl) (by norm_num [fuelAfterMain])⟩

/-- C6 counterexample: with left and thrust both requested, fuel 26
(exactly one second of main-thrust burn) and dt = 1, the main draw
empties the tank before the rotation stage reads it, so neither the
rotation fuel draw nor the torque fires: the post-step angular
velocity is 0, although the claim (fuel was positive at the start of
the step and left was requested) demands a change of
-rotationalAccel * dt = -2.6, which is nonzero whether or not the
damping factor is folded in.  The draws are therefore not independent. -/
theorem rotation_burn_cex :
    (update basePhys 880 ⟨true, false, true⟩ ⟨440, 90, 0, 2, 0, 0, 14, 26, ""⟩ 1).omega = 0 ∧
    ((0 : ℝ) - basePhys.rotAcc * 1 ≠ 0) ∧
    (((0 : ℝ) - basePhys.rotAcc * 1) * dampFactor 1 ≠ 0) ∧
    (0 : ℝ) < 26 ∧ (⟨true, false, true⟩ : Input).left = true := by
  have hdamp : dampFactor 1 ≠ 0 := by
    have : (0 : ℝ) < dampFactor 1 := by
      unfold dampFactor angularDampC
      exact Real.rpow_pos_of_pos (by norm_num) _
    exact this.ne'
  refine ⟨?_, by norm_num [basePhys], ?_, by norm_num, rfl⟩
  · norm_num [update, omegaAfterTorque, fuelAfterRot, fuelAfterMain, basePhys]
  · exact mul_ne_zero (by norm_num [basePhys]) hdamp

/-! ## Claim theorems: autopilot -/

/-- C2: for every autopilot invocation with fuel > 0, the burning latch
obeys the hysteresis rule: from true it leaves the latch true exactly
unless vy <= vFinal + 1 or altitude < 8; from false it turns true
exactly when the (tilt-suppressed) stopping-distance test fires or
altitude < 28 with vy > vFinal; and the thrust command written equals
the latch's exit value. -/
theorem autopilot_burn_latch (phys : Phys) (cfg : AutoCfg) (p1 p2 gy : ℝ)
    (l : Lander ℝ) (b : Bool) (inp : Input) (hf : 0 < l.fuel) :
    (b = true →
      ((applyAutopilot phys cfg p1 p2 gy l b inp).2 = false ↔
        (l.vy ≤ vFinalAt cfg (altitudeOf gy l) + 1 ∨ altitudeOf gy l < 8))) ∧
    (b = false →
      ((applyAutopilot phys cfg p1 p2 gy l b inp).2 = true ↔
        (needBurnFinal phys cfg l (altitudeOf gy l) = true ∨
          (altitudeOf gy l < 28 ∧ vFinalAt cfg (altitudeOf gy l) < l.vy)))) ∧
    (applyAutopilot phys cfg p1 p2 gy l b inp).1.thrust
      = (applyAutopilot phys cfg p1 p2 gy l b inp).2 := by
  have hne : ¬ l.fuel ≤ 0 := not_le.mpr hf
  have h2 : (applyAutopilot phys cfg p1 p2 gy l b inp).2
      = burningStep cfg l (altitudeOf gy l) (needBurnFinal phys cfg l (altitudeOf gy l)) b := by
    simp [applyAutopilot, hne]
  have hth : (applyAutopilot phys cfg p1 p2 gy l b inp).1.thrust
      = (applyAutopilot phys cfg p1 p2 gy l b inp).2 := by
    simp [applyAutopilot, hne]
  refine ⟨?_, ?_, hth⟩
  · rintro rfl
    rw [h2]
    simp only [burningStep, if_true]
    split_ifs with h
    · simpa using h
    · simpa using h
  · rintro rfl
    rw [h2]
    simp only [burningStep, Bool.false_eq_true, if_false]
    split_ifs with h
    · simpa using h
    · simpa using h

theorem autopilot_burn_latch_witness :
    (0 : ℝ) < 100 ∧
    ((true = true →
      ((applyAutopilot basePhys normalCfg 400 480 500
          ⟨440, 90, 0, 50, 0, 0, 14, 100, ""⟩ true ⟨false, false, false⟩).2 = false ↔
        ((50 : ℝ) ≤ vFinalAt normalCfg
            (altitudeOf 500 ⟨440, 90, 0, 50, 0, 0, 14, 100, ""⟩) + 1 ∨
          altitudeOf 500 (⟨440, 90, 0, 50, 0, 0, 14, 100, ""⟩ : Lander ℝ) < 8))) ∧
    (true = false →
      ((applyAutopilot basePhys normalCfg 400 480 500
          ⟨440, 90, 0, 50, 0, 0, 14, 100, ""⟩ true ⟨false, false, false⟩).2 = true ↔
        (needBurnFinal basePhys normalCfg ⟨440, 90, 0, 50, 0, 0, 14, 100, ""⟩
            (altitudeOf 500 ⟨440, 90, 0, 50, 0, 0, 14, 100, ""⟩) = true ∨
          (altitudeOf 500 (⟨440, 90, 0, 50, 0, 0, 14, 100, ""⟩ : Lander ℝ) < 28 ∧
            vFinalAt normalCfg (altitudeOf 500 ⟨440, 90, 0, 50, 0, 0, 14, 100, ""⟩) < 50)))) ∧
    (applyAutopilot basePhys normalCfg 400 480 500
        ⟨440, 90, 0, 50, 0, 0, 14, 100, ""⟩ true ⟨false, false, false⟩).1.thrust
      = (applyAutopilot basePhys normalCfg 400 480 500
          ⟨440, 90, 0, 50, 0, 0, 14, 100, ""⟩ true ⟨false, false, false⟩).2) :=
  ⟨by norm_num,
    autopilot_burn_latch basePhys normalCfg 400 480 500
      ⟨440, 90, 0, 50, 0, 0, 14, 100, ""⟩ true ⟨false, false, false⟩ (by norm_num)⟩

/-- C3 (amended): when fuel <= 0 the autopilot returns immediately,
leaving the control record exactly as the previous tick left it (and
the latch unchanged); the output is all-false only if the leftover
input already was. -/
theorem autopilot_zero_fuel_keeps_input (phys : Phys) (cfg : AutoCfg) (p1 p2 gy : ℝ)
    (l : Lander ℝ) (b : Bool) (inp : Input) (h : l.fuel ≤ 0) :
    applyAutopilot phys cfg p1 p2 gy l b inp = (inp, b) := by
  simp [applyAutopilot, h]

theorem autopilot_zero_fuel_keeps_input_witness :
    (0 : ℝ) ≤ 0 ∧
      applyAutopilot basePhys normalCfg 400 480 500 ⟨440, 90, 0, 2, 0, 0, 14, 0, ""⟩
        false ⟨false, true, false⟩ = (⟨false, true, false⟩, false) :=
  ⟨by norm_num,
    autopilot_zero_fuel_keeps_input basePhys normalCfg 400 480 500
      ⟨440, 90, 0, 2, 0, 0, 14, 0, ""⟩ false ⟨false, true, false⟩ (by norm_num)⟩

/-- C3 counterexample: with fuel 0 and a leftover control record whose
thrust flag is still set (as happens right after the last powered
tick, where the autopilot wrote thrust = burning), the invocation does
not produce the all-false record the claim demands: the early return
leaves thrust = true. -/
theorem autopilot_zero_fuel_cex :
    (applyAutopilot basePhys normalCfg 400 480 500 ⟨440, 90, 0, 2, 0, 0, 14, 0, ""⟩
        false ⟨false, false, true⟩).1 ≠ ⟨false, false, false⟩ := by
  have h : applyAutopilot basePhys normalCfg 400 480 500
      ⟨440, 90, 0, 2, 0, 0, 14, 0, ""⟩ false ⟨false, false, true⟩
      = (⟨false, false, true⟩, false) := by
    simp [applyAutopilot]
  rw [h]
  simp

/-- C10: the stopping-distance expression is evaluated only under the
guard a_on < 0 (with vy > vFinal), whose first conjunct makes the
denominator 2 * a_on nonzero; and with a_on >= 0 the burn test is
skipped, so neither the raw stopping-distance test nor the
tilt-suppressed needBurn can be true. -/
theorem burn_guard_division_safe (phys : Phys) (cfg : AutoCfg) (l : Lander ℝ) (alt : ℝ) :
    (burnGuard phys cfg l alt → 2 * vertAccelOn phys l.angle ≠ 0) ∧
    (0 ≤ vertAccelOn phys l.angle →
      stopBurnTest phys cfg l alt = false ∧ needBurnFinal phys cfg l alt = false) := by
  constructor
  · rintro ⟨ha, -⟩
    have h2 : 2 * vertAccelOn phys l.angle < 0 := by linarith
    exact ne_of_lt h2
  · intro ha
    have hng : ¬ burnGuard phys cfg l alt := fun hg => absurd hg.1 (not_lt.mpr ha)
    have hfalse : stopBurnTest phys cfg l alt = false := by
      simp only [stopBurnTest]
      rw [if_neg hng]
    refine ⟨hfalse, ?_⟩
    simp only [needBurnFinal, hfalse]
    simp

theorem burn_guard_division_safe_witness :
    (2 * vertAccelOn basePhys ((⟨440, 90, 0, 50, 0, 0, 14, 100, ""⟩ : Lander ℝ)).angle ≠ 0) ∧
    (stopBurnTest basePhys normalCfg ⟨440, 90, 0, 50, Real.pi, 0, 14, 100, ""⟩ 100 = false ∧
      needBurnFinal basePhys normalCfg ⟨440, 90, 0, 50, Real.pi, 0, 14, 100, ""⟩ 100 = false) :=
  ⟨(burn_guard_division_safe basePhys normalCfg ⟨440, 90, 0, 50, 0, 0, 14, 100, ""⟩ 100).1
      ⟨by norm_num [vertAccelOn, basePhys],
        by norm_num [vFinalAt, normalCfg]⟩,
    (burn_guard_division_safe basePhys normalCfg
        ⟨440, 90, 0, 50, Real.pi, 0, 14, 100, ""⟩ 100).2
      (by norm_num [vertAccelOn, basePhys, Real.cos_pi])⟩

/-! ## Terrain lemmas -/

theorem mkPointsD_length (opts : TerrainOpts) (rand : ℕ → ℚ) (w h : ℚ) :
    (mkPointsD opts rand w h).length = segCount + 1 := by
  simp [mkPointsD]

theorem mkPointsD_getElem? (opts : TerrainOpts) (rand : ℕ → ℚ) (w h : ℚ) (i : ℕ)
    (hi : i < segCount + 1) :
    (mkPointsD opts rand w h)[i]?
      = some ((i : ℚ) * (w / (segCount : ℚ)), ptYD opts rand w h i) := by
  simp [mkPointsD, List.getElem?_map, List.getElem?_range, hi]

theorem mkPointsD_getD (opts : TerrainOpts) (rand : ℕ → ℚ) (w h : ℚ) (i : ℕ)
    (hi : i < segCount + 1) :
    (mkPointsD opts rand w h).getD i (0, 0)
      = ((i : ℚ) * (w / (segCount : ℚ)), ptYD opts rand w h i) := by
  rw [List.getD_eq_getElem?_getD, mkPointsD_getElem? opts rand w h i hi, Option.getD_some]

theorem mkSegs_mkPointsD_length (opts : TerrainOpts) (rand : ℕ → ℚ) (w h : ℚ) :
    (mkSegs (mkPointsD opts rand w h)).length = segCount := by
  simp [mkSegs, List.length_zip, mkPointsD_length]

theorem mkSegs_mkPointsD_getD (opts : TerrainOpts) (rand : ℕ → ℚ) (w h : ℚ) (i : ℕ)
    (hi : i < segCount) :
    (mkSegs (mkPointsD opts rand w h)).getD i default
      = ⟨(i : ℚ) * (w / (segCount : ℚ)), ptYD opts rand w h i,
          ((i + 1 : ℕ) : ℚ) * (w / (segCount : ℚ)), ptYD opts rand w h (i + 1),
          (ptYD opts rand w h (i + 1) - ptYD opts rand w h i)
            / (((i + 1 : ℕ) : ℚ) * (w / (segCount : ℚ)) - (i : ℚ) * (w / (segCount : ℚ)))⟩ := by
  have h1 : (mkPointsD opts rand w h)[i]?
      = some ((i : ℚ) * (w / (segCount : ℚ)), ptYD opts rand w h i) :=
    mkPointsD_getElem? opts rand w h i (by omega)
  have h2 : (mkPointsD opts rand w h)[i + 1]?
      = some (((i + 1 : ℕ) : ℚ) * (w / (segCount : ℚ)), ptYD opts rand w h (i + 1)) :=
    mkPointsD_getElem? opts rand w h (i + 1) (by omega)
  have hz : ((mkPointsD opts rand w h).zip (mkPointsD opts rand w h).tail)[i]?
      = some (((i : ℚ) * (w / (segCount : ℚ)), ptYD opts rand w h i),
          (((i + 1 : ℕ) : ℚ) * (w / (segCount : ℚ)), ptYD opts rand w h (i + 1))) := by
    rw [List.getElem?_zip_eq_some]
    exact ⟨h1, by rw [List.getElem?_tail]; exact h2⟩
  rw [List.getD_eq_getElem?_getD]
  simp [mkSegs, List.getElem?_map, hz]

theorem padSegs_bounds (opts : TerrainOpts) (rand : ℕ → ℚ) :
    1 ≤ padSegsClamped opts rand ∧ padSegsClamped opts rand ≤ 20 := by
  simp only [padSegsClamped, clampZ, segCount]
  omega

theorem padIdx_bounds (opts : TerrainOpts) (rand : ℕ → ℚ) (w : ℚ) :
    1 ≤ padStartIdxD opts rand w ∧ padStartIdxD opts rand w ≤ 21 ∧
    padStartIdxD opts rand w + 1 ≤ padEndIdxD opts rand w ∧ padEndIdxD opts rand w ≤ 22 := by
  simp only [padStartIdxD, padEndIdxD, clampZ, segCount]
  omega

theorem padEnd_eq (opts : TerrainOpts) (rand : ℕ → ℚ) (w : ℚ) :
    padEndIdxD opts rand w
      = min (padStartIdxD opts rand w + padSegsClamped opts rand) 22 := by
  have hp := padSegs_bounds opts rand
  have hs := padIdx_bounds opts rand w
  simp only [padEndIdxD, clampZ, segCount] at hs ⊢
  omega

/-! ## Claim theorems: terrain -/

/-- C7: for every generated terrain, at every boundary x-position
shared by two consecutive segments, evaluating yAt through the left
segment's line equals evaluating it through the right segment's line
(exact continuity at shared endpoints, in exact arithmetic); and for
every x in [0, width) the segment index yAt uses is in bounds, so
yAt returns a value. -/
theorem terrain_boundary_continuity (w hgt : ℚ) (opts : TerrainOpts) (rand : ℕ → ℚ)
    (hw : 0 < w) :
    (∀ i : ℕ, 1 ≤ i → i ≤ segCount - 1 →
      segEval ((makeTerrain w hgt opts rand).segs.getD (i - 1) default)
          ((i : ℚ) * (w / (segCount : ℚ)))
        = segEval ((makeTerrain w hgt opts rand).segs.getD i default)
            ((i : ℚ) * (w / (segCount : ℚ)))) ∧
    (∀ x : ℚ, 0 ≤ x → x < w →
      yAtIdx (makeTerrain w hgt opts rand) x < (makeTerrain w hgt opts rand).segs.length) := by
  have hsegs : (makeTerrain w hgt opts rand).segs = mkSegs (mkPointsD opts rand w hgt) := rfl
  have hstep : w / (segCount : ℚ) ≠ 0 := by
    apply div_ne_zero (ne_of_gt hw)
    simp [segCount]
  constructor
  · intro i h1 h2
    have hi1 : i - 1 < segCount := by simp [segCount] at h2 ⊢; omega
    have hi2 : i < segCount := by simp [segCount] at h2 ⊢; omega
    rw [hsegs, mkSegs_mkPointsD_getD opts rand w hgt (i - 1) hi1,
      mkSegs_mkPointsD_getD opts rand w hgt i hi2]
    have hieq : i - 1 + 1 = i := by omega
    rw [hieq]
    simp only [segEval]
    have hcast : ((i - 1 : ℕ) : ℚ) = (i : ℚ) - 1 := by
      push_cast [h1]
      ring
    rw [hcast]
    have hd : (i : ℚ) * (w / (segCount : ℚ)) - ((i : ℚ) - 1) * (w / (segCount : ℚ))
        = w / (segCount : ℚ) := by ring
    rw [hd, div_mul_cancel₀ _ hstep]
    ring
  · intro x hx0 hxw
    rw [hsegs]
    rw [mkSegs_mkPointsD_length]
    simp only [yAtIdx, hsegs, mkSegs_mkPointsD_length]
    have hmin : min ⌊clampQ x 0 ((makeTerrain w hgt opts rand).width - 1)
        / (makeTerrain w hgt opts rand).width * ((segCount : ℕ) : ℚ)⌋ ((segCount : ℤ) - 1)
        ≤ (segCount : ℤ) - 1 := min_le_right _ _
    simp only [segCount] at hmin ⊢
    omega

theorem terrain_boundary_continuity_witness :
    (0 : ℚ) < 880 ∧
    ((∀ i : ℕ, 1 ≤ i → i ≤ segCount - 1 →
      segEval ((makeTerrain 880 600 ⟨some 4, none, none⟩ (fun _ => 1/2)).segs.getD (i - 1) default)
          ((i : ℚ) * (880 / (segCount : ℚ)))
        = segEval ((makeTerrain 880 600 ⟨some 4, none, none⟩ (fun _ => 1/2)).segs.getD i default)
            ((i : ℚ) * (880 / (segCount : ℚ)))) ∧
    (∀ x : ℚ, 0 ≤ x → x < 880 →
      yAtIdx (makeTerrain 880 600 ⟨some 4, none, none⟩ (fun _ => 1/2)) x
        < (makeTerrain 880 600 ⟨some 4, none, none⟩ (fun _ => 1/2)).segs.length)) :=
  ⟨by norm_num,
    terrain_boundary_continuity 880 600 ⟨some 4, none, none⟩ (fun _ => 1/2) (by norm_num)⟩

/-- C8 (amended): for every generated terrain, all sample points whose
index lies in [startIdx, endIdx] have y equal to the single pad
y-value, and the exposed pad satisfies pad.x1 < pad.x2.  The plateau
spans min(clampedWidth, segmentCount - startIdx) segments, where
clampedWidth is the requested width clamped to [1, segmentCount - 2]:
this equals the requested clamped width exactly when
startIdx + clampedWidth <= segmentCount; when the clamped request
overruns the right boundary the plateau is truncated there. -/
theorem pad_flat_and_width (w hgt : ℚ) (opts : TerrainOpts) (rand : ℕ → ℚ) (hw : 0 < w) :
    (∀ i : ℕ, padStartIdxD opts rand w ≤ (i : ℤ) → (i : ℤ) ≤ padEndIdxD opts rand w →
      ((makeTerrain w hgt opts rand).points.getD i (0, 0)).2 = padYD opts rand hgt) ∧
    (makeTerrain w hgt opts rand).pad.x1 < (makeTerrain w hgt opts rand).pad.x2 ∧
    (makeTerrain w hgt opts rand).pad.x2 - (makeTerrain w hgt opts rand).pad.x1
      = ((min (padSegsClamped opts rand) (22 - padStartIdxD opts rand w) : ℤ) : ℚ)
        * (w / (segCount : ℚ)) ∧
    (padStartIdxD opts rand w + padSegsClamped opts rand ≤ 22 →
      (makeTerrain w hgt opts rand).pad.x2 - (makeTerrain w hgt opts rand).pad.x1
        = ((padSegsClamped opts rand : ℤ) : ℚ) * (w / (segCount : ℚ))) := by
  have hb := padIdx_bounds opts rand w
  have hpts : (makeTerrain w hgt opts rand).points = mkPointsD opts rand w hgt := rfl
  have hstep : (0 : ℚ) < w / (segCount : ℚ) := by
    apply div_pos hw
    simp [segCount]
  have hcast1 : (((padStartIdxD opts rand w).toNat : ℕ) : ℚ)
      = ((padStartIdxD opts rand w : ℤ) : ℚ) := by
    have h0 : (((padStartIdxD opts rand w).toNat : ℕ) : ℤ) = padStartIdxD opts rand w :=
      Int.toNat_of_nonneg (by omega)
    exact_mod_cast h0
  have hcast2 : (((padEndIdxD opts rand w).toNat : ℕ) : ℚ)
      = ((padEndIdxD opts rand w : ℤ) : ℚ) := by
    have h0 : (((padEndIdxD opts rand w).toNat : ℕ) : ℤ) = padEndIdxD opts rand w :=
      Int.toNat_of_nonneg (by omega)
    exact_mod_cast h0
  have hx1 : (makeTerrain w hgt opts rand).pad.x1
      = ((padStartIdxD opts rand w : ℤ) : ℚ) * (w / (segCount : ℚ)) := by
    show ((mkPointsD opts rand w hgt).getD (padStartIdxD opts rand w).toNat (0, 0)).1
      = ((padStartIdxD opts rand w : ℤ) : ℚ) * (w / (segCount : ℚ))
    rw [mkPointsD_getD opts rand w hgt (padStartIdxD opts rand w).toNat
      (by simp only [segCount]; omega)]
    exact congrArg (fun q => q * (w / (segCount : ℚ))) hcast1
  have hx2 : (makeTerrain w hgt opts rand).pad.x2
      = ((padEndIdxD opts rand w : ℤ) : ℚ) * (w / (segCount : ℚ)) := by
    show ((mkPointsD opts rand w hgt).getD (padEndIdxD opts rand w).toNat (0, 0)).1
      = ((padEndIdxD opts rand w : ℤ) : ℚ) * (w / (segCount : ℚ))
    rw [mkPointsD_getD opts rand w hgt (padEndIdxD opts rand w).toNat
      (by simp only [segCount]; omega)]
    exact congrArg (fun q => q * (w / (segCount : ℚ))) hcast2
  have hspan : ∀ z : ℤ, padEndIdxD opts rand w - padStartIdxD opts rand w = z →
      (makeTerrain w hgt opts rand).pad.x2 - (makeTerrain w hgt opts rand).pad.x1
        = ((z : ℤ) : ℚ) * (w / (segCount : ℚ)) := by
    intro z hz
    rw [hx1, hx2, ← sub_mul]
    have hq : ((padEndIdxD opts rand w : ℤ) : ℚ) - ((padStartIdxD opts rand w : ℤ) : ℚ)
        = ((z : ℤ) : ℚ) := by
      exact_mod_cast congrArg (fun a : ℤ => (a : ℚ)) hz
    rw [hq]
  refine ⟨?_, ?_, ?_, ?_⟩
  · intro i his hie
    rw [hpts, mkPointsD_getD opts rand w hgt i (by simp only [segCount]; omega)]
    simp only [ptYD]
    rw [if_pos ⟨his, hie⟩]
  · rw [hx1, hx2]
    have hlt : ((padStartIdxD opts rand w : ℤ) : ℚ) < ((padEndIdxD opts rand w : ℤ) : ℚ) := by
      exact_mod_cast (by omega : padStartIdxD opts rand w < padEndIdxD opts rand w)
    exact mul_lt_mul_of_pos_right hlt hstep
  · apply hspan
    have he := padEnd_eq opts rand w
    omega
  · intro hfit
    apply hspan
    have he := padEnd_eq opts rand w
    omega

theorem pad_flat_and_width_witness :
    (0 : ℚ) < 880 ∧
    ((∀ i : ℕ, padStartIdxD ⟨some 4, none, none⟩ (fun _ => 1/2) 880 ≤ (i : ℤ) →
        (i : ℤ) ≤ padEndIdxD ⟨some 4, none, none⟩ (fun _ => 1/2) 880 →
      ((makeTerrain 880 600 ⟨some 4, none, none⟩ (fun _ => 1/2)).points.getD i (0, 0)).2
        = padYD ⟨some 4, none, none⟩ (fun _ => 1/2) 600) ∧
    (makeTerrain 880 600 ⟨some 4, none, none⟩ (fun _ => 1/2)).pad.x1
      < (makeTerrain 880 600 ⟨some 4, none, none⟩ (fun _ => 1/2)).pad.x2 ∧
    (makeTerrain 880 600 ⟨some 4, none, none⟩ (fun _ => 1/2)).pad.x2
        - (makeTerrain 880 600 ⟨some 4, none, none⟩ (fun _ => 1/2)).pad.x1
      = ((min (padSegsClamped ⟨some 4, none, none⟩ (fun _ => 1/2))
            (22 - padStartIdxD ⟨some 4, none, none⟩ (fun _ => 1/2) 880) : ℤ) : ℚ)
          * (880 / (segCount : ℚ)) ∧
    (padStartIdxD ⟨some 4, none, none⟩ (fun _ => 1/2) 880
        + padSegsClamped ⟨some 4, none, none⟩ (fun _ => 1/2) ≤ 22 →
      (makeTerrain 880 600 ⟨some 4, none, none⟩ (fun _ => 1/2)).pad.x2
          - (makeTerrain 880 600 ⟨some 4, none, none⟩ (fun _ => 1/2)).pad.x1
        = ((padSegsClamped ⟨some 4, none, none⟩ (fun _ => 1/2) : ℤ) : ℚ)
            * (880 / (segCount : ℚ)))) :=
  ⟨by norm_num,
    pad_flat_and_width 880 600 ⟨some 4, none, none⟩ (fun _ => 1/2) (by norm_num)⟩

/-- C8 counterexample: requesting a pad of 20 segments (the clamp
bound, so clampedWidth = 20) centered at x = 880 on an 880-wide world
puts startIdx at 11, and endIdx is clamped to the last point index 22:
the plateau spans 22 - 11 = 11 segments and pad.x2 - pad.x1 is
440 = 11 * step, not the 800 = 20 * step the claim demands. -/
theorem pad_width_truncated_cex :
    padSegsClamped ⟨some 20, some 880, none⟩ (fun _ => 0) = 20 ∧
    (makeTerrain 880 600 ⟨some 20, some 880, none⟩ (fun _ => 0)).pad.x2
        - (makeTerrain 880 600 ⟨some 20, some 880, none⟩ (fun _ => 0)).pad.x1 = 440 ∧
    (440 : ℚ) ≠ 20 * (880 / (segCount : ℚ)) := by
  have h1 : padSegsClamped ⟨some 20, some 880, none⟩ (fun _ => 0) = 20 := by
    simp [padSegsClamped, clampZ, segCount]
  have hc : padCenterIdxD ⟨some 20, some 880, none⟩ (fun _ => 0) 880 = 21 := by
    simp only [padCenterIdxD, segCount]
    norm_num [clampZ, round_eq]
  have hs : padStartIdxD ⟨some 20, some 880, none⟩ (fun _ => 0) 880 = 11 := by
    simp only [padStartIdxD, padHalfD, hc, h1, segCount]
    norm_num [clampZ]
  have he : padEndIdxD ⟨some 20, some 880, none⟩ (fun _ => 0) 880 = 22 := by
    simp only [padEndIdxD, hs, h1, segCount]
    norm_num [clampZ]
  have hx1 : (makeTerrain 880 600 ⟨some 20, some 880, none⟩ (fun _ => 0)).pad.x1
      = ((11 : ℕ) : ℚ) * ((880 : ℚ) / (segCount : ℚ)) := by
    show ((mkPointsD ⟨some 20, some 880, none⟩ (fun _ => 0) 880 600).getD
        (padStartIdxD ⟨some 20, some 880, none⟩ (fun _ => 0) 880).toNat (0, 0)).1
      = ((11 : ℕ) : ℚ) * ((880 : ℚ) / (segCount : ℚ))
    rw [hs]
    rw [mkPointsD_getD ⟨some 20, some 880, none⟩ (fun _ => 0) 880 600 (11 : ℤ).toNat
      (by simp [segCount])]
    simp
  have hx2 : (makeTerrain 880 600 ⟨some 20, some 880, none⟩ (fun _ => 0)).pad.x2
      = ((22 : ℕ) : ℚ) * ((880 : ℚ) / (segCount : ℚ)) := by
    show ((mkPointsD ⟨some 20, some 880, none⟩ (fun _ => 0) 880 600).getD
        (padEndIdxD ⟨some 20, some 880, none⟩ (fun _ => 0) 880).toNat (0, 0)).1
      = ((22 : ℕ) : ℚ) * ((880 : ℚ) / (segCount : ℚ))
    rw [he]
    rw [mkPointsD_getD ⟨some 20, some 880, none⟩ (fun _ => 0) 880 600 (22 : ℤ).toNat
      (by simp [segCount])]
    simp
  refine ⟨h1, ?_, ?_⟩
  · rw [hx1, hx2]
    norm_num [segCount]
  · norm_num [segCount]

/-! ## Claim theorems: collision judge -/

/-- A concrete terrain for the collision witness: one flat segment at
height 100 across an 800-wide world, pad on [300, 500]. -/
def wTerrain : TerrainQ :=
  ⟨800, 600, [(0, 100), (800, 100)], [⟨0, 100, 800, 100, 0⟩], ⟨300, 500, 100⟩⟩

/-- The normal-difficulty safety limits. -/
def wSafe : SafeLimits := ⟨38, 48, 0.25⟩

/-- C1: at ground contact, the judge classifies landed exactly when
the x is within the pad inclusive and |angle|, |vx|, |vy| are within
the limits; landing zeroes vx, vy and omega; otherwise the state is
crashed and the stored reason string joins the reason list, which
holds exactly the reasons of the failed predicates, as a sublist of
the fixed order missed pad / bad angle / too fast (h) / too fast (v). -/
theorem collision_judge_classification (t : TerrainQ) (safe : SafeLimits) (l : Lander ℚ)
    (gs : GState) (hc : yAt t l.x ≤ l.y + l.radius) :
    ((handleCollision t safe l gs).2 = GState.landed ↔
      ((t.pad.x1 ≤ l.x ∧ l.x ≤ t.pad.x2) ∧ |l.angle| ≤ safe.angle ∧
        |l.vx| ≤ safe.vX ∧ |l.vy| ≤ safe.vY)) ∧
    (((t.pad.x1 ≤ l.x ∧ l.x ≤ t.pad.x2) ∧ |l.angle| ≤ safe.angle ∧
        |l.vx| ≤ safe.vX ∧ |l.vy| ≤ safe.vY) →
      (handleCollision t safe l gs).1.vx = 0 ∧ (handleCollision t safe l gs).1.vy = 0 ∧
        (handleCollision t safe l gs).1.omega = 0 ∧
        (handleCollision t safe l gs).2 = GState.landed) ∧
    (¬((t.pad.x1 ≤ l.x ∧ l.x ≤ t.pad.x2) ∧ |l.angle| ≤ safe.angle ∧
        |l.vx| ≤ safe.vX ∧ |l.vy| ≤ safe.vY) →
      (handleCollision t safe l gs).2 = GState.crashed ∧
        (handleCollision t safe l gs).1.crashedReason
          = String.intercalate ", " (collisionReasons safe t.pad l)) ∧
    (∀ r : String, r ∈ collisionReasons safe t.pad l ↔
      ((r = "missed pad" ∧ ¬(t.pad.x1 ≤ l.x ∧ l.x ≤ t.pad.x2)) ∨
       (r = "bad angle" ∧ ¬|l.angle| ≤ safe.angle) ∨
       (r = "too fast (h)" ∧ ¬|l.vx| ≤ safe.vX) ∨
       (r = "too fast (v)" ∧ ¬|l.vy| ≤ safe.vY))) ∧
    (collisionReasons safe t.pad l).Sublist
      ["missed pad", "bad angle", "too fast (h)", "too fast (v)"] := by
  have hsub : (collisionReasons safe t.pad l).Sublist
      ["missed pad", "bad angle", "too fast (h)", "too fast (v)"] := by
    unfold collisionReasons
    split_ifs <;> decide
  have hmem : ∀ r : String, r ∈ collisionReasons safe t.pad l ↔
      ((r = "missed pad" ∧ ¬(t.pad.x1 ≤ l.x ∧ l.x ≤ t.pad.x2)) ∨
       (r = "bad angle" ∧ ¬|l.angle| ≤ safe.angle) ∨
       (r = "too fast (h)" ∧ ¬|l.vx| ≤ safe.vX) ∨
       (r = "too fast (v)" ∧ ¬|l.vy| ≤ safe.vY)) := by
    intro r
    unfold collisionReasons
    split_ifs <;> simp_all [not_not]
  by_cases hall : ((t.pad.x1 ≤ l.x ∧ l.x ≤ t.pad.x2) ∧ |l.angle| ≤ safe.angle ∧
      |l.vx| ≤ safe.vX ∧ |l.vy| ≤ safe.vY)
  · refine ⟨?_, ?_, ?_, hmem, hsub⟩ <;>
      simp [handleCollision, hc, hall]
  · refine ⟨?_, ?_, ?_, hmem, hsub⟩ <;>
      simp [handleCollision, hc, hall]

/-- A concrete lander touching down on the witness pad. -/
def wLander : Lander ℚ := ⟨400, 90, 0, 10, 0, 0, 14, 50, ""⟩

theorem collision_judge_classification_witness :
    yAt wTerrain wLander.x ≤ wLander.y + wLander.radius ∧
    (((handleCollision wTerrain wSafe wLander GState.playing).2 = GState.landed ↔
      ((wTerrain.pad.x1 ≤ wLander.x ∧ wLander.x ≤ wTerrain.pad.x2) ∧
        |wLander.angle| ≤ wSafe.angle ∧
        |wLander.vx| ≤ wSafe.vX ∧ |wLander.vy| ≤ wSafe.vY)) ∧
    (((wTerrain.pad.x1 ≤ wLander.x ∧ wLander.x ≤ wTerrain.pad.x2) ∧
        |wLander.angle| ≤ wSafe.angle ∧
        |wLander.vx| ≤ wSafe.vX ∧ |wLander.vy| ≤ wSafe.vY) →
      (handleCollision wTerrain wSafe wLander GState.playing).1.vx = 0 ∧
        (handleCollision wTerrain wSafe wLander GState.playing).1.vy = 0 ∧
        (handleCollision wTerrain wSafe wLander GState.playing).1.omega = 0 ∧
        (handleCollision wTerrain wSafe wLander GState.playing).2 = GState.landed) ∧
    (¬((wTerrain.pad.x1 ≤ wLander.x ∧ wLander.x ≤ wTerrain.pad.x2) ∧
        |wLander.angle| ≤ wSafe.angle ∧
        |wLander.vx| ≤ wSafe.vX ∧ |wLander.vy| ≤ wSafe.vY) →
      (handleCollision wTerrain wSafe wLander GState.playing).2 = GState.crashed ∧
        (handleCollision wTerrain wSafe wLander GState.playing).1.crashedReason
          = String.intercalate ", " (collisionReasons wSafe wTerrain.pad wLander)) ∧
    (∀ r : String, r ∈ collisionReasons wSafe wTerrain.pad wLander ↔
      ((r = "missed pad" ∧ ¬(wTerrain.pad.x1 ≤ wLander.x ∧ wLander.x ≤ wTerrain.pad.x2)) ∨
       (r = "bad angle" ∧ ¬|wLander.angle| ≤ wSafe.angle) ∨
       (r = "too fast (h)" ∧ ¬|wLander.vx| ≤ wSafe.vX) ∨
       (r = "too fast (v)" ∧ ¬|wLander.vy| ≤ wSafe.vY))) ∧
    (collisionReasons wSafe wTerrain.pad wLander).Sublist
      ["missed pad", "bad angle", "too fast (h)", "too fast (v)"]) :=
  ⟨by norm_num [yAt, yAtIdx, clampQ, segEval, wTerrain, wLander],
    collision_judge_classification wTerrain wSafe wLander GState.playing
      (by norm_num [yAt, yAtIdx, clampQ, segEval, wTerrain, wLander])⟩
